import Mathlib

/-!
Verification of the order-lifecycle and cart-to-order core of the
restaurant-backend service.

The definitions below are a shallow embedding of the Python source:

  - app/models/order.py       (OrderStatus, OrderItem, Order and their
                               pydantic validators)
  - app/models/cart_item.py   (CartItem)
  - app/models/menu_item.py   (MenuItem)
  - app/routers/orders.py     (create_order, create_order_from_cart,
                               update_order_status, cancel_order,
                               get_order_stats)
  - app/routers/cart.py       (add_to_cart)

Conventions of the embedding:

  - Money is an exact fixed-point decimal with two decimal places, so it is
    embedded as an integer count of cents; the 0.01 epsilon of the model
    validators is 1 cent.  The only division in the core (the average order
    value of the statistics endpoint) is embedded as exact division in the
    rationals.
  - MongoDB object ids and datetimes are embedded as natural numbers.
  - The three persistent collections (menu_items, cart_items, orders) form a
    DB record; each endpoint is a pure function from a DB (plus request
    arguments) to a result, the successor DB, and, where a claim is about
    persistence ordering, the list of write effects in execution order.
  - HTTP error responses are embedded as an error enumeration; pydantic
    validation failures that the routers convert into generic 500 responses
    are the ValidationError constructor; a failing order-store write is
    modeled by a Boolean save_ok argument.
-/

namespace RestaurantBackend

/-- Money amounts in cents (exact two-decimal fixed point). -/
abbrev Money := ℤ

/-- The 0.01 tolerance of the pydantic validators, in cents. -/
def eps : Money := 1

/-- OrderStatus enum of app/models/order.py. -/
inductive OrderStatus
  | PENDING
  | IN_PREPARATION
  | READY
  | DELIVERED
  | CANCELLED
deriving DecidableEq, Repr

/-- User roles recognized by the routers. -/
inductive Role
  | CLIENT
  | ADMIN_STAFF
deriving DecidableEq, Repr

/-- The authenticated caller (id and role are what the handlers read). -/
structure User where
  id : Nat
  role : Role
deriving DecidableEq, Repr

/-- MenuItem document of app/models/menu_item.py (catalog record). -/
structure MenuItem where
  id : Nat
  category_id : Nat
  name : String
  description : Option String
  price : Money
  available : Bool
deriving DecidableEq, Repr

/-- CartItem document of app/models/cart_item.py (one cart line). -/
structure CartItem where
  id : Nat
  user_id : Nat
  menu_item_id : Nat
  menu_item_name : String
  menu_item_price : Money
  quantity : ℤ
  created_at : Nat
  updated_at : Nat
deriving DecidableEq, Repr

/-- Derived subtotal property of CartItem (menu_item_price * quantity). -/
def CartItem.subtotal (c : CartItem) : Money := c.menu_item_price * c.quantity

/-- Embedded order-item snapshot of app/models/order.py. -/
structure OrderItem where
  menu_item_id : Nat
  menu_item_name : String
  quantity : ℤ
  unit_price : Money
  subtotal : Money
  special_instructions : Option String
deriving DecidableEq, Repr

/-- Order document of app/models/order.py. -/
structure Order where
  id : Nat
  user_id : Nat
  items : List OrderItem
  total : Money
  status : OrderStatus
  notes : Option String
  created_at : Nat
  updated_at : Nat
deriving DecidableEq, Repr

/-- Length bound on an optional text field (None always passes). -/
def optLenLe (s : Option String) (n : Nat) : Bool :=
  match s with
  | none => true
  | some t => decide (t.length ≤ n)

/-- Pydantic construction of OrderItem (app/models/order.py): the field
constraints in declaration order, then the validate_subtotal check that the
stored subtotal is within 0.01 of quantity * unit_price. -/
def mkOrderItem (menu_item_id : Nat) (menu_item_name : String) (quantity : ℤ)
    (unit_price subtotal : Money) (special_instructions : Option String) :
    Option OrderItem :=
  if ¬ (1 ≤ menu_item_name.length ∧ menu_item_name.length ≤ 100) then none
  else if ¬ (0 < quantity) then none
  else if ¬ (0 < unit_price) then none
  else if ¬ (0 < subtotal) then none
  else if |subtotal - quantity * unit_price| > eps then none
  else if ¬ (optLenLe special_instructions 200 = true) then none
  else some ⟨menu_item_id, menu_item_name, quantity, unit_price, subtotal,
             special_instructions⟩

/-- Pydantic construction of Order (app/models/order.py): items non-empty
(min_items=1), total positive, the validate_total_amount check that total is
within 0.01 of the sum of the item subtotals, and the notes length bound. -/
def mkOrder (id user_id : Nat) (items : List OrderItem) (total : Money)
    (status : OrderStatus) (notes : Option String) (created_at updated_at : Nat) :
    Option Order :=
  if items = [] then none
  else if ¬ (0 < total) then none
  else if |total - (items.map OrderItem.subtotal).sum| > eps then none
  else if ¬ (optLenLe notes 500 = true) then none
  else some ⟨id, user_id, items, total, status, notes, created_at, updated_at⟩

/-- Caller-visible failure outcomes of the embedded handlers. -/
inductive Err
  | EmptyCart
  | ItemNotFound (menu_item_id : Nat)
  | ItemUnavailable (menu_item_id : Nat)
  | OrderNotFound
  | InvalidTransition (fromStatus toStatus : OrderStatus)
  | Forbidden
  | AlreadyCancelled
  | AlreadyDelivered
  | ClientCancelNotPending
  | LimitExceeded
  | ValidationError
  | SaveFailed
deriving DecidableEq, Repr

/-- The three persistent collections the core reads and writes. -/
structure DB where
  menu_items : List MenuItem
  cart_items : List CartItem
  orders : List Order
deriving DecidableEq, Repr

/-- MenuItem.get: catalog lookup by id. -/
def findMenuItem (db : DB) (mid : Nat) : Option MenuItem :=
  db.menu_items.find? (fun m => m.id == mid)

/-- CartItem.find by user_id: the cart lines of one user, in store order. -/
def userCart (db : DB) (u : Nat) : List CartItem :=
  db.cart_items.filter (fun c => c.user_id == u)

/-- Order.get: order lookup by id. -/
def findOrder (db : DB) (oid : Nat) : Option Order :=
  db.orders.find? (fun o => o.id == oid)

/-- CartItem.find_one by (user_id, menu_item_id). -/
def findCartLine (db : DB) (u mid : Nat) : Option CartItem :=
  db.cart_items.find? (fun c => c.user_id == u && c.menu_item_id == mid)

/-- Document save of an existing cart line (update in place, keyed by id). -/
def saveCartLine (db : DB) (c : CartItem) : DB :=
  { db with cart_items := db.cart_items.map (fun x => if x.id = c.id then c else x) }

/-- Document save of an existing order (update in place, keyed by id). -/
def saveOrderDoc (db : DB) (o : Order) : DB :=
  { db with orders := db.orders.map (fun x => if x.id = o.id then o else x) }

/-- Document save of a new order. -/
def insertOrder (db : DB) (o : Order) : DB :=
  { db with orders := db.orders ++ [o] }

/-- CartItem.find by user, followed by delete: removes every cart line of the
user. -/
def deleteUserCart (db : DB) (u : Nat) : DB :=
  { db with cart_items := db.cart_items.filter (fun c => !(c.user_id == u)) }

/-- Durable writes performed by the order-creation handlers, in execution
order. -/
inductive Effect
  | SaveOrder (o : Order)
  | ClearUserCart (u : Nat)
deriving DecidableEq, Repr

/-- The per-line loop of create_order_from_cart (app/routers/orders.py,
lines 862-891): for each cart line, resolve the catalog record (404 if the
menu item is missing), reject unavailable items (400), compute the subtotal
from the current catalog price, and construct the OrderItem through the
pydantic validators (a validator failure escapes as the generic 500,
embedded as ValidationError).  Cart lines carry no special instructions. -/
def buildOrderItemsFromCart (db : DB) : List CartItem → Except Err (List OrderItem)
  | [] => .ok []
  | c :: rest =>
    match findMenuItem db c.menu_item_id with
    | none => .error (.ItemNotFound c.menu_item_id)
    | some m =>
      if m.available = false then .error (.ItemUnavailable m.id)
      else
        match mkOrderItem m.id m.name c.quantity m.price (m.price * c.quantity) none with
        | none => .error .ValidationError
        | some oit =>
          match buildOrderItemsFromCart db rest with
          | .error e => .error e
          | .ok rest' => .ok (oit :: rest')

/-- POST /orders/from-cart (app/routers/orders.py, create_order_from_cart):
validates the notes query parameter, loads the cart of the caller (400
EmptyCart when it has no lines), converts every line through the loop above,
sums the subtotals into the total, constructs the Order (status PENDING),
saves it, and only then deletes the cart lines of the caller.  save_ok models
whether the order-store write is durably acknowledged; when it is not, the
handler fails and nothing else runs.  The third component lists the durable
writes in execution order. -/
def create_order_from_cart (db : DB) (u : Nat) (notes : Option String)
    (new_order_id now : Nat) (save_ok : Bool) :
    Except Err Order × DB × List Effect :=
  if optLenLe notes 500 = false then (.error .ValidationError, db, [])
  else
    if userCart db u = [] then (.error .EmptyCart, db, [])
    else
      match buildOrderItemsFromCart db (userCart db u) with
      | .error e => (.error e, db, [])
      | .ok items =>
        match mkOrder new_order_id u items ((items.map OrderItem.subtotal).sum)
            .PENDING notes now now with
        | none => (.error .ValidationError, db, [])
        | some o =>
          if save_ok = false then (.error .SaveFailed, db, [])
          else
            (.ok o, deleteUserCart (insertOrder db o) u,
             [.SaveOrder o, .ClearUserCart u])

/-- One requested line of the POST /orders/ payload (OrderItemCreate in
app/schemas/order.py). -/
structure OrderItemCreate where
  menu_item_id : Nat
  quantity : ℤ
  special_instructions : Option String
deriving DecidableEq, Repr

/-- Schema constraints of OrderItemCreate: quantity positive, special
instructions at most 200 characters. -/
def orderItemCreateValid (it : OrderItemCreate) : Bool :=
  decide (0 < it.quantity) && optLenLe it.special_instructions 200

/-- Schema constraints of the whole OrderCreate payload: at least one item,
every item valid, notes at most 500 characters. -/
def orderCreatePayloadValid (items : List OrderItemCreate)
    (notes : Option String) : Bool :=
  !items.isEmpty && items.all orderItemCreateValid && optLenLe notes 500

/-- The per-item loop of create_order (app/routers/orders.py, lines
242-278): resolve the catalog record, reject missing (404) and unavailable
(400) items, compute the subtotal from the current catalog price, construct
the OrderItem through the pydantic validators. -/
def resolveOrderItems (db : DB) : List OrderItemCreate → Except Err (List OrderItem)
  | [] => .ok []
  | it :: rest =>
    match findMenuItem db it.menu_item_id with
    | none => .error (.ItemNotFound it.menu_item_id)
    | some m =>
      if m.available = false then .error (.ItemUnavailable m.id)
      else
        match mkOrderItem m.id m.name it.quantity m.price (m.price * it.quantity)
            it.special_instructions with
        | none => .error .ValidationError
        | some oit =>
          match resolveOrderItems db rest with
          | .error e => .error e
          | .ok rest' => .ok (oit :: rest')

/-- POST /orders/ (app/routers/orders.py, create_order): validates the
OrderCreate payload (at least one item, per-item constraints, notes at most
500 characters), resolves every requested item against the current catalog,
sums the subtotals, constructs and saves the Order (status PENDING), and then
deletes every cart line of the caller. -/
def create_order (db : DB) (u : Nat) (items : List OrderItemCreate)
    (notes : Option String) (new_order_id now : Nat) (save_ok : Bool) :
    Except Err Order × DB × List Effect :=
  if orderCreatePayloadValid items notes = false then
    (.error .ValidationError, db, [])
  else
    match resolveOrderItems db items with
    | .error e => (.error e, db, [])
    | .ok oitems =>
      match mkOrder new_order_id u oitems ((oitems.map OrderItem.subtotal).sum)
          .PENDING notes now now with
      | none => (.error .ValidationError, db, [])
      | some o =>
        if save_ok = false then (.error .SaveFailed, db, [])
        else
          (.ok o, deleteUserCart (insertOrder db o) u,
           [.SaveOrder o, .ClearUserCart u])

/-- The valid_transitions table of update_order_status (app/routers/orders.py,
lines 372-378). -/
def valid_transitions : OrderStatus → List OrderStatus
  | .PENDING => [.IN_PREPARATION, .CANCELLED]
  | .IN_PREPARATION => [.READY, .CANCELLED]
  | .READY => [.DELIVERED, .CANCELLED]
  | .DELIVERED => []
  | .CANCELLED => []

/-- PATCH /orders/id/status (app/routers/orders.py, update_order_status):
loads the order, consults the transition table, and either saves the new
status with a fresh updated_at or rejects the request with the stored state
untouched.  The admin-only dependency runs before the handler and is outside
this function. -/
def update_order_status (db : DB) (oid : Nat) (new_status : OrderStatus)
    (now : Nat) : Except Err Order × DB :=
  match findOrder db oid with
  | none => (.error .OrderNotFound, db)
  | some order =>
    if new_status ∈ valid_transitions order.status then
      let o' := { order with status := new_status, updated_at := now }
      (.ok o', saveOrderDoc db o')
    else (.error (.InvalidTransition order.status new_status), db)

/-- DELETE /orders/id (app/routers/orders.py, cancel_order): loads the
order; rejects already CANCELLED and already DELIVERED orders first; then,
for CLIENT callers only, checks ownership and that the status is still
PENDING; finally saves the order with status CANCELLED. -/
def cancel_order (db : DB) (caller : User) (oid : Nat) (now : Nat) :
    Except Err Unit × DB :=
  match findOrder db oid with
  | none => (.error .OrderNotFound, db)
  | some order =>
    if order.status = .CANCELLED then (.error .AlreadyCancelled, db)
    else if order.status = .DELIVERED then (.error .AlreadyDelivered, db)
    else if caller.role = .CLIENT ∧ order.user_id ≠ caller.id then
      (.error .Forbidden, db)
    else if caller.role = .CLIENT ∧ order.status ≠ .PENDING then
      (.error .ClientCancelNotPending, db)
    else
      (.ok (), saveOrderDoc db { order with status := .CANCELLED, updated_at := now })

/-- Schema constraint of CartItemCreate: quantity in 1..20. -/
def cartItemCreateValid (qty : ℤ) : Bool :=
  decide (0 < qty) && decide (qty ≤ 20)

/-- POST /cart/items (app/routers/cart.py, add_to_cart): validates the
CartItemCreate payload (quantity 1..20), resolves the menu item (404 missing,
400 unavailable), and either bumps the quantity of the existing line of
(user, item) — rejecting with the 20-unit cap and leaving the line untouched
when the sum exceeds it — or creates a new line snapshotting the current
name and price. -/
def add_to_cart (db : DB) (u mid : Nat) (qty : ℤ) (new_line_id now : Nat) :
    Except Err CartItem × DB :=
  if cartItemCreateValid qty = false then (.error .ValidationError, db)
  else
    match findMenuItem db mid with
    | none => (.error (.ItemNotFound mid), db)
    | some m =>
      if m.available = false then (.error (.ItemUnavailable m.id), db)
      else
        match findCartLine db u m.id with
        | some line =>
          if line.quantity + qty > 20 then (.error .LimitExceeded, db)
          else
            let line' := { line with quantity := line.quantity + qty, updated_at := now }
            (.ok line', saveCartLine db line')
        | none =>
          let line : CartItem := ⟨new_line_id, u, m.id, m.name, m.price, qty, now, now⟩
          (.ok line, { db with cart_items := db.cart_items ++ [line] })

/-- Response of GET /orders/stats/dashboard (OrderStats in
app/schemas/order.py); the average is rational-valued because it is a
quotient. -/
structure OrderStats where
  total_orders : Nat
  pending_orders : Nat
  in_preparation_orders : Nat
  ready_orders : Nat
  delivered_orders : Nat
  cancelled_orders : Nat
  total_revenue : Money
  average_order_value : ℚ
deriving DecidableEq, Repr

/-- Orders whose created_at falls in the inclusive date range. -/
def ordersInRange (db : DB) (date_from date_to : Nat) : List Order :=
  db.orders.filter (fun o => date_from ≤ o.created_at && o.created_at ≤ date_to)

/-- The DELIVERED orders of the range (the revenue base of the handler). -/
def deliveredInRange (db : DB) (date_from date_to : Nat) : List Order :=
  (ordersInRange db date_from date_to).filter (fun o => decide (o.status = OrderStatus.DELIVERED))

/-- GET /orders/stats/dashboard (app/routers/orders.py, get_order_stats):
counts orders per status over the date range; revenue sums the totals of
DELIVERED orders only; the average order value divides revenue by the count
of DELIVERED orders, guarded to 0.00 when there are none.  Decimal division
is embedded as exact rational division. -/
def get_order_stats (db : DB) (date_from date_to : Nat) : OrderStats :=
  let orders := ordersInRange db date_from date_to
  let delivered_totals :=
    (orders.filter (fun o => decide (o.status = OrderStatus.DELIVERED))).map (fun o => o.total)
  let total_revenue : Money := if delivered_totals = [] then 0 else delivered_totals.sum
  { total_orders := orders.length
    pending_orders := (orders.filter (fun o => decide (o.status = OrderStatus.PENDING))).length
    in_preparation_orders :=
      (orders.filter (fun o => decide (o.status = OrderStatus.IN_PREPARATION))).length
    ready_orders := (orders.filter (fun o => decide (o.status = OrderStatus.READY))).length
    delivered_orders :=
      (orders.filter (fun o => decide (o.status = OrderStatus.DELIVERED))).length
    cancelled_orders :=
      (orders.filter (fun o => decide (o.status = OrderStatus.CANCELLED))).length
    total_revenue := total_revenue
    average_order_value :=
      if delivered_totals = [] then 0
      else (total_revenue : ℚ) / (delivered_totals.length : ℚ) }

/-- Two cart lines that agree on everything except possibly the snapshotted
menu_item_price. -/
def eqExceptPrice (a b : CartItem) : Prop :=
  b = { a with menu_item_price := b.menu_item_price }

/-! Helper lemmas shared by the claim theorems. -/

/-- Replacing, keyed by k, the found element of a list by a new element that
still satisfies the search predicate makes find? return the new element. -/
lemma find?_replace {α : Type} (p : α → Bool) (k : α → Nat) (b : α) :
    ∀ (l : List α) (a : α), l.find? p = some a → k b = k a → p b = true →
      (l.map (fun x => if k x = k b then b else x)).find? p = some b := by
  intro l
  induction l with
  | nil => intro a h _ _; simp at h
  | cons x xs ih =>
    intro a h hk hp
    by_cases hx : p x = true
    · rw [List.find?_cons_of_pos _ hx] at h
      have hxa : x = a := by injection h
      subst hxa
      simp only [List.map_cons]
      rw [if_pos (by rw [hk]), List.find?_cons_of_pos _ hp]
    · rw [List.find?_cons_of_neg _ (by simpa using hx)] at h
      simp only [List.map_cons]
      by_cases hkx : k x = k b
      · rw [if_pos hkx, List.find?_cons_of_pos _ hp]
      · rw [if_neg hkx, List.find?_cons_of_neg _ (by simpa using hx)]
        exact ih a h hk hp

/-- Inversion of the OrderItem validators: a constructed item carries exactly
the supplied fields and those fields pass every check. -/
lemma mkOrderItem_eq_some {mid : Nat} {name : String} {qty : ℤ} {up st : Money}
    {instr : Option String} {it : OrderItem}
    (h : mkOrderItem mid name qty up st instr = some it) :
    it = ⟨mid, name, qty, up, st, instr⟩ ∧ 0 < qty ∧ 0 < up ∧ 0 < st ∧
      |st - qty * up| ≤ eps := by
  unfold mkOrderItem at h
  split_ifs at h with h1 h2 h3 h4 h5 h6
  injection h with hh
  exact ⟨hh.symm, h2, h3, h4, not_lt.mp h5⟩

/-- Inversion of the Order validators. -/
lemma mkOrder_eq_some {oid uid : Nat} {its : List OrderItem} {total : Money}
    {s : OrderStatus} {notes : Option String} {ca ua : Nat} {o : Order}
    (h : mkOrder oid uid its total s notes ca ua = some o) :
    o = ⟨oid, uid, its, total, s, notes, ca, ua⟩ ∧ its ≠ [] ∧ 0 < total ∧
      |total - (its.map OrderItem.subtotal).sum| ≤ eps := by
  unfold mkOrder at h
  split_ifs at h with h1 h2 h3 h4
  injection h with hh
  exact ⟨hh.symm, h1, h2, not_lt.mp h3⟩

/-- After deleting every cart line of a user, that user has no cart lines. -/
lemma userCart_deleteUserCart (db : DB) (u : Nat) :
    userCart (deleteUserCart db u) u = [] := by
  unfold userCart deleteUserCart
  simp only [List.filter_filter]
  rw [List.filter_eq_nil_iff]
  intro c _
  simp

/-- Summing the totals of the DELIVERED orders of a list equals summing a
per-order contribution that is zero for every other status. -/
lemma sum_delivered_totals (l : List Order) :
    ((l.filter (fun o => decide (o.status = OrderStatus.DELIVERED))).map
        (fun o => o.total)).sum
      = (l.map (fun o => if o.status = OrderStatus.DELIVERED then o.total else 0)).sum := by
  induction l with
  | nil => rfl
  | cons x xs ih =>
    by_cases hx : x.status = OrderStatus.DELIVERED
    · simp [List.filter_cons, hx, ih]
    · simp [List.filter_cons, hx, ih]

/-- A successful catalog lookup returns a record bearing the looked-up id. -/
lemma findMenuItem_id {db : DB} {mid : Nat} {m : MenuItem}
    (h : findMenuItem db mid = some m) : m.id = mid := by
  unfold findMenuItem at h
  have := List.find?_some h
  simpa using this

/-- Specification of the cart-line conversion loop: on success there is one
order item per cart line, and every produced item snapshots the current
catalog record: the catalog item is present and available, the unit price is
the current catalog price, and the subtotal is that price times the
quantity. -/
lemma buildOrderItemsFromCart_ok (db : DB) :
    ∀ (lines : List CartItem) (its : List OrderItem),
      buildOrderItemsFromCart db lines = .ok its →
      its.length = lines.length ∧
      ∀ it ∈ its, ∃ m : MenuItem, findMenuItem db it.menu_item_id = some m ∧
        m.available = true ∧ it.unit_price = m.price ∧
        it.subtotal = m.price * it.quantity := by
  intro lines
  induction lines with
  | nil =>
    intro its h
    rw [buildOrderItemsFromCart] at h
    injection h with hh
    subst hh
    exact ⟨rfl, by intro it hit; cases hit⟩
  | cons c rest ih =>
    intro its h
    rw [buildOrderItemsFromCart] at h
    split at h
    · cases h
    · rename_i m hm
      split at h
      · cases h
      · rename_i hav
        split at h
        · cases h
        · rename_i oit hmk
          split at h
          · cases h
          · rename_i rest' hrest
            injection h with hh
            subst hh
            obtain ⟨hlen, hall⟩ := ih rest' hrest
            obtain ⟨heq, _, _, _, _⟩ := mkOrderItem_eq_some hmk
            refine ⟨by simp [hlen], ?_⟩
            intro it hit
            rcases List.mem_cons.mp hit with h1 | h2
            · subst h1
              refine ⟨m, ?_, by simpa using hav, ?_, ?_⟩
              · rw [heq]
                show findMenuItem db m.id = some m
                rw [findMenuItem_id hm]
                exact hm
              · rw [heq]
              · rw [heq]
            · exact hall it h2

/-- Specification of the requested-item resolution loop of create_order:
same shape as the cart-line loop. -/
lemma resolveOrderItems_ok (db : DB) :
    ∀ (reqs : List OrderItemCreate) (its : List OrderItem),
      resolveOrderItems db reqs = .ok its →
      its.length = reqs.length ∧
      ∀ it ∈ its, ∃ m : MenuItem, findMenuItem db it.menu_item_id = some m ∧
        m.available = true ∧ it.unit_price = m.price ∧
        it.subtotal = m.price * it.quantity := by
  intro reqs
  induction reqs with
  | nil =>
    intro its h
    rw [resolveOrderItems] at h
    injection h with hh
    subst hh
    exact ⟨rfl, by intro it hit; cases hit⟩
  | cons r rest ih =>
    intro its h
    rw [resolveOrderItems] at h
    split at h
    · cases h
    · rename_i m hm
      split at h
      · cases h
      · rename_i hav
        split at h
        · cases h
        · rename_i oit hmk
          split at h
          · cases h
          · rename_i rest' hrest
            injection h with hh
            subst hh
            obtain ⟨hlen, hall⟩ := ih rest' hrest
            obtain ⟨heq, _, _, _, _⟩ := mkOrderItem_eq_some hmk
            refine ⟨by simp [hlen], ?_⟩
            intro it hit
            rcases List.mem_cons.mp hit with h1 | h2
            · subst h1
              refine ⟨m, ?_, by simpa using hav, ?_, ?_⟩
              · rw [heq]
                show findMenuItem db m.id = some m
                rw [findMenuItem_id hm]
                exact hm
              · rw [heq]
              · rw [heq]
            · exact hall it h2

/-- A cart line whose menu item is missing or unavailable makes the whole
conversion loop fail: no line is ever skipped. -/
lemma buildOrderItemsFromCart_not_ok (db : DB) :
    ∀ (lines : List CartItem) (c : CartItem), c ∈ lines →
      (findMenuItem db c.menu_item_id = none ∨
        ∃ m : MenuItem, findMenuItem db c.menu_item_id = some m ∧
          m.available = false) →
      ∀ its, buildOrderItemsFromCart db lines ≠ .ok its := by
  intro lines
  induction lines with
  | nil => intro c hc; cases hc
  | cons x rest ih =>
    intro c hc hbad its h
    rw [buildOrderItemsFromCart] at h
    split at h
    · cases h
    · rename_i m hm
      split at h
      · cases h
      · rename_i hav
        split at h
        · cases h
        · rename_i oit hmk
          split at h
          · cases h
          · rename_i rest' hrest
            rcases List.mem_cons.mp hc with h1 | h2
            · subst h1
              rcases hbad with hnone | ⟨m', hm', hav'⟩
              · rw [hnone] at hm; cases hm
              · rw [hm'] at hm
                injection hm with hmm
                subst hmm
                exact hav (by simpa using hav')
            · exact ih c h2 hbad rest' hrest

/-- Every run of create_order_from_cart either fails with the database
untouched and no write effect, or converts the whole cart, saves the order,
and then clears the cart of the user. -/
lemma create_order_from_cart_cases (db : DB) (u : Nat) (notes : Option String)
    (oid now : Nat) (save_ok : Bool) :
    (∃ e, create_order_from_cart db u notes oid now save_ok = (.error e, db, [])) ∨
    (∃ (o : Order) (its : List OrderItem),
      buildOrderItemsFromCart db (userCart db u) = .ok its ∧
      mkOrder oid u its ((its.map OrderItem.subtotal).sum) .PENDING notes now now
        = some o ∧
      create_order_from_cart db u notes oid now save_ok =
        (.ok o, deleteUserCart (insertOrder db o) u,
         [.SaveOrder o, .ClearUserCart u])) := by
  cases h1 : optLenLe notes 500 with
  | false => exact .inl ⟨.ValidationError, by simp [create_order_from_cart, h1]⟩
  | true =>
    by_cases h2 : userCart db u = []
    · exact .inl ⟨.EmptyCart, by simp [create_order_from_cart, h1, h2]⟩
    · cases hb : buildOrderItemsFromCart db (userCart db u) with
      | error e =>
        exact .inl ⟨e, by simp [create_order_from_cart, h1, h2, hb]⟩
      | ok its =>
        cases hmk : mkOrder oid u its ((its.map OrderItem.subtotal).sum)
            .PENDING notes now now with
        | none =>
          exact .inl ⟨.ValidationError,
            by simp [create_order_from_cart, h1, h2, hb, hmk]⟩
        | some o =>
          cases save_ok with
          | false =>
            exact .inl ⟨.SaveFailed,
              by simp [create_order_from_cart, h1, h2, hb, hmk]⟩
          | true =>
            refine .inr ⟨o, its, rfl, hmk, ?_⟩
            simp [create_order_from_cart, h1, h2, hb, hmk]

/-- Every run of create_order either fails with the database untouched and no
write effect, or resolves every requested item, saves the order, and then
clears the cart of the user. -/
lemma create_order_cases (db : DB) (u : Nat) (items : List OrderItemCreate)
    (notes : Option String) (oid now : Nat) (save_ok : Bool) :
    (∃ e, create_order db u items notes oid now save_ok = (.error e, db, [])) ∨
    (∃ (o : Order) (its : List OrderItem),
      resolveOrderItems db items = .ok its ∧
      mkOrder oid u its ((its.map OrderItem.subtotal).sum) .PENDING notes now now
        = some o ∧
      create_order db u items notes oid now save_ok =
        (.ok o, deleteUserCart (insertOrder db o) u,
         [.SaveOrder o, .ClearUserCart u])) := by
  cases h1 : orderCreatePayloadValid items notes with
  | false => exact .inl ⟨.ValidationError, by simp [create_order, h1]⟩
  | true =>
    cases hb : resolveOrderItems db items with
    | error e =>
      exact .inl ⟨e, by simp [create_order, h1, hb]⟩
    | ok its =>
      cases hmk : mkOrder oid u its ((its.map OrderItem.subtotal).sum)
          .PENDING notes now now with
      | none =>
        exact .inl ⟨.ValidationError, by simp [create_order, h1, hb, hmk]⟩
      | some o =>
        cases save_ok with
        | false =>
          exact .inl ⟨.SaveFailed, by simp [create_order, h1, hb, hmk]⟩
        | true =>
          refine .inr ⟨o, its, rfl, hmk, ?_⟩
          simp [create_order, h1, hb, hmk]

/-! Concrete fixtures used by counterexamples and witnesses. -/

/-- Catalog item A: price 10.00, available. -/
def fixMenuA : MenuItem := ⟨1, 1, "Item A", none, 1000, true⟩

/-- Catalog item B: price 5.00, not available. -/
def fixMenuB : MenuItem := ⟨2, 1, "Item B", none, 500, false⟩

/-- Catalog item C: price 7.00, available. -/
def fixMenuC : MenuItem := ⟨3, 1, "Item C", none, 700, true⟩

/-- Cart line of user 7: item A, quantity 2. -/
def fixLineA : CartItem := ⟨10, 7, 1, "Item A", 1000, 2, 0, 0⟩

/-- Cart line of user 7: item B (unavailable), quantity 1. -/
def fixLineB : CartItem := ⟨11, 7, 2, "Item B", 500, 1, 0, 0⟩

/-- Cart line of user 7: item C, quantity 1. -/
def fixLineC : CartItem := ⟨12, 7, 3, "Item C", 700, 1, 0, 0⟩

/-- The C1 scenario database: one available and one unavailable cart line. -/
def mixedDB : DB := ⟨[fixMenuA, fixMenuB], [fixLineA, fixLineB], []⟩

/-- A database whose single cart line is orderable. -/
def availDB : DB := ⟨[fixMenuA], [fixLineA], []⟩

/-- A database with an orderable cart holding items A and C. -/
def twoLineDB : DB := ⟨[fixMenuA, fixMenuC], [fixLineA, fixLineC], []⟩

/-- The order produced from item A, quantity 2, at price 10.00. -/
def fixOrder : Order :=
  ⟨42, 7, [⟨1, "Item A", 2, 1000, 2000, none⟩], 2000, .PENDING, none, 5, 5⟩

/-- C2: in every execution of createFromCart the new Order is durably
persisted before any cart-line deletion begins.  Whenever the run fails —
empty cart, a menu item that does not resolve, a validation failure, or a
failing order save — the database, and with it every cart line of the user,
is unchanged; and in the trace of durable writes every cart-clearing effect
is strictly preceded by an order-save effect. -/
theorem createFromCart_persists_order_before_clearing_cart
    (db : DB) (u : Nat) (notes : Option String) (oid now : Nat) (save_ok : Bool) :
    (∀ e, (create_order_from_cart db u notes oid now save_ok).1 = .error e →
      (create_order_from_cart db u notes oid now save_ok).2.1 = db) ∧
    (∀ (i : Nat)
       (hi : i < (create_order_from_cart db u notes oid now save_ok).2.2.length)
       (uu : Nat),
      (create_order_from_cart db u notes oid now save_ok).2.2.get ⟨i, hi⟩ =
        .ClearUserCart uu →
      ∃ (j : Nat)
        (hj : j < (create_order_from_cart db u notes oid now save_ok).2.2.length),
        j < i ∧ ∃ o,
          (create_order_from_cart db u notes oid now save_ok).2.2.get ⟨j, hj⟩ =
            .SaveOrder o) := by
  rcases create_order_from_cart_cases db u notes oid now save_ok with
    ⟨e, he⟩ | ⟨o, its, hb, hmk, hr⟩
  · rw [he]
    constructor
    · intro e' _; rfl
    · intro i hi uu _
      simp at hi
  · rw [hr]
    constructor
    · intro e' he'; simp at he'
    · intro i hi uu hget
      rcases i with _ | _ | i
      · simp at hget
      · exact ⟨0, by simp, by omega, o, rfl⟩
      · simp at hi; omega

/-- C2 witness: on the mixed database the run fails (item B unavailable) and
the database is unchanged; on the orderable database the cart-clearing
effect at position 1 of the trace is preceded by an order save. -/
theorem createFromCart_persists_order_before_clearing_cart_witness :
    (create_order_from_cart mixedDB 7 none 42 5 true).2.1 = mixedDB ∧
    (∃ (j : Nat)
      (hj : j < (create_order_from_cart availDB 7 none 42 5 true).2.2.length),
      j < 1 ∧ ∃ o,
        (create_order_from_cart availDB 7 none 42 5 true).2.2.get ⟨j, hj⟩ =
          .SaveOrder o) := by
  constructor
  · exact (createFromCart_persists_order_before_clearing_cart mixedDB 7 none 42 5
      true).1 (.ItemUnavailable 2) rfl
  · exact (createFromCart_persists_order_before_clearing_cart availDB 7 none 42 5
      true).2 1 (by decide) 7 rfl

/-- C9: after every successful create_order — an order created from an
explicit item list, not from the cart — every cart line of the caller is
deleted, including lines whose menu items do not appear in the order, so the
cart of the caller is empty afterwards. -/
theorem createFromItems_clears_whole_cart (db : DB) (u : Nat)
    (items : List OrderItemCreate) (notes : Option String) (oid now : Nat)
    (save_ok : Bool) (o : Order)
    (h : (create_order db u items notes oid now save_ok).1 = .ok o) :
    userCart (create_order db u items notes oid now save_ok).2.1 u = [] := by
  rcases create_order_cases db u items notes oid now save_ok with
    ⟨e, he⟩ | ⟨o', its, hb, hmk, hr⟩
  · rw [he] at h; simp at h
  · rw [hr]
    exact userCart_deleteUserCart _ u

/-- C9 witness: user 7 orders only item A while the cart also holds a line
for item C; after the successful call the cart of user 7 is empty. -/
theorem createFromItems_clears_whole_cart_witness :
    userCart (create_order twoLineDB 7 [⟨1, 2, none⟩] none 42 5 true).2.1 7 = [] :=
  createFromItems_clears_whole_cart twoLineDB 7 [⟨1, 2, none⟩] none 42 5 true
    fixOrder rfl

/-- The transition table of the source, rephrased as the explicit edge set of
the claim. -/
lemma valid_transitions_edges :
    ∀ s t : OrderStatus, t ∈ valid_transitions s ↔
      ((s = .PENDING ∧ (t = .IN_PREPARATION ∨ t = .CANCELLED)) ∨
       (s = .IN_PREPARATION ∧ (t = .READY ∨ t = .CANCELLED)) ∨
       (s = .READY ∧ (t = .DELIVERED ∨ t = .CANCELLED))) := by
  intro s t
  cases s <;> cases t <;> decide

/-- C3: updateStatus succeeds exactly on the edges PENDING to IN_PREPARATION
or CANCELLED, IN_PREPARATION to READY or CANCELLED, READY to DELIVERED or
CANCELLED; on every other pair — including requesting the current status
again, and any request on a DELIVERED or CANCELLED order — it fails
InvalidTransition and the stored order is unchanged. -/
theorem updateStatus_follows_transition_table (db : DB) (oid : Nat)
    (new_status : OrderStatus) (now : Nat) (order : Order)
    (hfind : findOrder db oid = some order) :
    (((order.status = .PENDING ∧
        (new_status = .IN_PREPARATION ∨ new_status = .CANCELLED)) ∨
      (order.status = .IN_PREPARATION ∧
        (new_status = .READY ∨ new_status = .CANCELLED)) ∨
      (order.status = .READY ∧
        (new_status = .DELIVERED ∨ new_status = .CANCELLED))) →
      (update_order_status db oid new_status now).1 =
        .ok { order with status := new_status, updated_at := now } ∧
      findOrder (update_order_status db oid new_status now).2 oid =
        some { order with status := new_status, updated_at := now }) ∧
    (¬ ((order.status = .PENDING ∧
        (new_status = .IN_PREPARATION ∨ new_status = .CANCELLED)) ∨
      (order.status = .IN_PREPARATION ∧
        (new_status = .READY ∨ new_status = .CANCELLED)) ∨
      (order.status = .READY ∧
        (new_status = .DELIVERED ∨ new_status = .CANCELLED))) →
      (update_order_status db oid new_status now).1 =
        .error (.InvalidTransition order.status new_status) ∧
      (update_order_status db oid new_status now).2 = db) := by
  have hfind' : db.orders.find? (fun o => o.id == oid) = some order := hfind
  have hid : order.id = oid := by simpa using List.find?_some hfind'
  constructor
  · intro hedge
    have hmem : new_status ∈ valid_transitions order.status :=
      (valid_transitions_edges order.status new_status).mpr hedge
    constructor
    · simp [update_order_status, hfind, hmem]
    · simp only [update_order_status, hfind, if_pos hmem]
      exact find?_replace _ Order.id _ db.orders order hfind' rfl (by simp [hid])
  · intro hedge
    have hmem : ¬ new_status ∈ valid_transitions order.status := fun hc =>
      hedge ((valid_transitions_edges order.status new_status).mp hc)
    constructor
    · simp [update_order_status, hfind, hmem]
    · simp [update_order_status, hfind, hmem]

/-- A stored order in state PENDING, used by the status-transition
witnesses. -/
def statusDB : DB := ⟨[], [], [fixOrder]⟩

/-- C3 witness: on the stored PENDING order, moving to IN_PREPARATION
succeeds and is stored, while requesting PENDING again (a self-transition)
fails InvalidTransition and leaves the database unchanged. -/
theorem updateStatus_follows_transition_table_witness :
    ((update_order_status statusDB 42 .IN_PREPARATION 9).1 =
        .ok { fixOrder with status := .IN_PREPARATION, updated_at := 9 } ∧
      findOrder (update_order_status statusDB 42 .IN_PREPARATION 9).2 42 =
        some { fixOrder with status := .IN_PREPARATION, updated_at := 9 }) ∧
    ((update_order_status statusDB 42 .PENDING 9).1 =
        .error (.InvalidTransition fixOrder.status .PENDING) ∧
      (update_order_status statusDB 42 .PENDING 9).2 = statusDB) := by
  constructor
  · exact (updateStatus_follows_transition_table statusDB 42 .IN_PREPARATION 9
      fixOrder rfl).1 (.inl ⟨rfl, .inl rfl⟩)
  · exact (updateStatus_follows_transition_table statusDB 42 .PENDING 9
      fixOrder rfl).2 (by decide)

/-- C10: in cancel the terminal-status checks run before the ownership and
role checks: on a CANCELLED order any authenticated caller — whatever the
role and whether or not the caller owns the order — receives
AlreadyCancelled rather than Forbidden, and on a DELIVERED order
AlreadyDelivered likewise precedes any authorization failure; in both cases
the database is unchanged. -/
theorem cancel_checks_terminal_status_before_authorization (db : DB)
    (caller : User) (oid now : Nat) (order : Order)
    (hfind : findOrder db oid = some order) :
    (order.status = .CANCELLED →
      cancel_order db caller oid now = (.error .AlreadyCancelled, db)) ∧
    (order.status = .DELIVERED →
      cancel_order db caller oid now = (.error .AlreadyDelivered, db)) := by
  constructor
  · intro hs
    simp [cancel_order, hfind, hs]
  · intro hs
    simp [cancel_order, hfind, hs]

/-- A CANCELLED order owned by user 7. -/
def cancelledOrder : Order :=
  ⟨60, 7, [⟨1, "Item A", 2, 1000, 2000, none⟩], 2000, .CANCELLED, none, 0, 0⟩

/-- A DELIVERED order owned by user 7. -/
def deliveredOrder : Order :=
  ⟨61, 7, [⟨1, "Item A", 2, 1000, 2000, none⟩], 2000, .DELIVERED, none, 0, 0⟩

/-- Order store holding one CANCELLED and one DELIVERED order. -/
def terminalDB : DB := ⟨[], [], [cancelledOrder, deliveredOrder]⟩

/-- C10 witness: a CLIENT caller who does not own the orders gets
AlreadyCancelled on the CANCELLED order and AlreadyDelivered on the
DELIVERED order, never Forbidden. -/
theorem cancel_checks_terminal_status_before_authorization_witness :
    cancel_order terminalDB ⟨99, .CLIENT⟩ 60 3 =
      (.error .AlreadyCancelled, terminalDB) ∧
    cancel_order terminalDB ⟨99, .CLIENT⟩ 61 3 =
      (.error .AlreadyDelivered, terminalDB) :=
  ⟨(cancel_checks_terminal_status_before_authorization terminalDB ⟨99, .CLIENT⟩
      60 3 cancelledOrder rfl).1 rfl,
   (cancel_checks_terminal_status_before_authorization terminalDB ⟨99, .CLIENT⟩
      61 3 deliveredOrder rfl).2 rfl⟩

/-- C4: cancel succeeds for a CLIENT caller exactly when the order is their
own and still PENDING; for a staff caller exactly when the status is
PENDING, IN_PREPARATION or READY; nobody can cancel a DELIVERED order; and
every successful cancel stores the order with status CANCELLED. -/
theorem cancel_role_and_status_rules (db : DB) (caller : User) (oid now : Nat)
    (order : Order) (hfind : findOrder db oid = some order) :
    (caller.role = .CLIENT →
      ((cancel_order db caller oid now).1 = .ok () ↔
        order.user_id = caller.id ∧ order.status = .PENDING)) ∧
    (caller.role = .ADMIN_STAFF →
      ((cancel_order db caller oid now).1 = .ok () ↔
        (order.status = .PENDING ∨ order.status = .IN_PREPARATION ∨
          order.status = .READY))) ∧
    (order.status = .DELIVERED → (cancel_order db caller oid now).1 ≠ .ok ()) ∧
    ((cancel_order db caller oid now).1 = .ok () →
      findOrder (cancel_order db caller oid now).2 oid =
        some { order with status := .CANCELLED, updated_at := now }) := by
  have hfind' : db.orders.find? (fun o => o.id == oid) = some order := hfind
  have hid : order.id = oid := by simpa using List.find?_some hfind'
  have hstore : findOrder
      (saveOrderDoc db { order with status := .CANCELLED, updated_at := now }) oid
      = some { order with status := .CANCELLED, updated_at := now } :=
    find?_replace _ Order.id _ db.orders order hfind' rfl (by simp [hid])
  have hres : cancel_order db caller oid now =
      if order.status = .CANCELLED then (.error .AlreadyCancelled, db)
      else if order.status = .DELIVERED then (.error .AlreadyDelivered, db)
      else if caller.role = .CLIENT ∧ order.user_id ≠ caller.id then
        (.error .Forbidden, db)
      else if caller.role = .CLIENT ∧ order.status ≠ .PENDING then
        (.error .ClientCancelNotPending, db)
      else
        (.ok (),
          saveOrderDoc db { order with status := .CANCELLED, updated_at := now }) := by
    simp only [cancel_order, hfind]
  refine ⟨?_, ?_, ?_, ?_⟩
  · intro hrole
    rw [hres]
    split_ifs with h1 h2 h3 h4
    · simp [h1]
    · simp [h2]
    · simp [h3.2]
    · simp [h4.2]
    · have hown : order.user_id = caller.id := by
        by_contra hno; exact h3 ⟨hrole, hno⟩
      have hpend : order.status = .PENDING := by
        by_contra hno; exact h4 ⟨hrole, hno⟩
      simp [hown, hpend]
  · intro hrole
    rw [hres]
    split_ifs with h1 h2 h3 h4
    · simp [h1]
    · simp [h2]
    · obtain ⟨hc, _⟩ := h3
      rw [hrole] at hc
      cases hc
    · obtain ⟨hc, _⟩ := h4
      rw [hrole] at hc
      cases hc
    · cases hst : order.status with
      | PENDING => simp [hst]
      | IN_PREPARATION => simp [hst]
      | READY => simp [hst]
      | DELIVERED => exact absurd hst h2
      | CANCELLED => exact absurd hst h1
  · intro hdel
    rw [hres]
    split_ifs <;> simp_all
  · intro hok
    rw [hres] at hok ⊢
    split_ifs at hok ⊢ with h1 h2 h3 h4
    exact hstore

/-- A READY order owned by user 7. -/
def readyOrder : Order :=
  ⟨62, 7, [⟨1, "Item A", 2, 1000, 2000, none⟩], 2000, .READY, none, 0, 0⟩

/-- Order store holding the READY order. -/
def readyDB : DB := ⟨[], [], [readyOrder]⟩

/-- C4 witness: on the READY order, the owner-client cancel is characterized
as failing (clients may only cancel PENDING orders) and the staff cancel as
succeeding. -/
theorem cancel_role_and_status_rules_witness :
    ((cancel_order readyDB ⟨7, .CLIENT⟩ 62 3).1 = .ok () ↔
      readyOrder.user_id = 7 ∧ readyOrder.status = .PENDING) ∧
    ((cancel_order readyDB ⟨5, .ADMIN_STAFF⟩ 62 3).1 = .ok () ↔
      (readyOrder.status = .PENDING ∨ readyOrder.status = .IN_PREPARATION ∨
        readyOrder.status = .READY)) :=
  ⟨(cancel_role_and_status_rules readyDB ⟨7, .CLIENT⟩ 62 3 readyOrder rfl).1 rfl,
   (cancel_role_and_status_rules readyDB ⟨5, .ADMIN_STAFF⟩ 62 3 readyOrder
      rfl).2.1 rfl⟩

/-- C7: when a cart line for (user, item) already exists with quantity q,
adding n more units stores quantity q + n when q + n is at most 20, and
fails LimitExceeded when q + n exceeds 20, in which case the database — and
in particular the stored quantity q of the line — is unchanged. -/
theorem addToCart_additive_with_cap (db : DB) (u mid : Nat) (qty : ℤ)
    (new_line_id now : Nat) (m : MenuItem) (line : CartItem)
    (hm : findMenuItem db mid = some m) (hav : m.available = true)
    (hline : findCartLine db u m.id = some line)
    (hq : cartItemCreateValid qty = true) :
    (line.quantity + qty ≤ 20 →
      (add_to_cart db u mid qty new_line_id now).1 =
        .ok { line with quantity := line.quantity + qty, updated_at := now } ∧
      findCartLine (add_to_cart db u mid qty new_line_id now).2 u m.id =
        some { line with quantity := line.quantity + qty, updated_at := now }) ∧
    (20 < line.quantity + qty →
      (add_to_cart db u mid qty new_line_id now).1 = .error .LimitExceeded ∧
      (add_to_cart db u mid qty new_line_id now).2 = db ∧
      findCartLine (add_to_cart db u mid qty new_line_id now).2 u m.id =
        some line) := by
  have hline' : db.cart_items.find?
      (fun c => c.user_id == u && c.menu_item_id == m.id) = some line := hline
  have hkeys : (line.user_id == u && line.menu_item_id == m.id) = true := by
    have := List.find?_some hline'
    simpa using this
  have hres : add_to_cart db u mid qty new_line_id now =
      if line.quantity + qty > 20 then (.error .LimitExceeded, db)
      else
        (.ok { line with quantity := line.quantity + qty, updated_at := now },
          saveCartLine db
            { line with quantity := line.quantity + qty, updated_at := now }) := by
    simp only [add_to_cart, hq, hm, hav, hline]
    simp
  constructor
  · intro hle
    have hgt : ¬ (line.quantity + qty > 20) := not_lt.mpr hle
    rw [hres, if_neg hgt]
    refine ⟨rfl, ?_⟩
    exact find?_replace _ CartItem.id _ db.cart_items line hline' rfl hkeys
  · intro hgt
    rw [hres, if_pos hgt]
    exact ⟨rfl, rfl, hline⟩

/-- Catalog with item A and an empty cart, for the 15 + 10 scenario. -/
def capDB : DB := ⟨[fixMenuA], [], []⟩

/-- C7 witness: after add(user 7, item 1, 15), a second add of 10 fails
LimitExceeded (15 + 10 = 25 > 20) and the stored line keeps quantity 15. -/
theorem addToCart_additive_with_cap_witness :
    (add_to_cart (add_to_cart capDB 7 1 15 30 2).2 7 1 10 31 3).1 =
      .error .LimitExceeded ∧
    (add_to_cart (add_to_cart capDB 7 1 15 30 2).2 7 1 10 31 3).2 =
      (add_to_cart capDB 7 1 15 30 2).2 ∧
    findCartLine (add_to_cart (add_to_cart capDB 7 1 15 30 2).2 7 1 10 31 3).2
      7 1 = some ⟨30, 7, 1, "Item A", 1000, 15, 2, 2⟩ :=
  (addToCart_additive_with_cap (add_to_cart capDB 7 1 15 30 2).2 7 1 10 31 3
    fixMenuA ⟨30, 7, 1, "Item A", 1000, 15, 2, 2⟩ rfl rfl rfl rfl).2 (by decide)

/-- C8: over any date range the statistics sum revenue over the DELIVERED
orders of the range only — every other status contributes zero — and the
average order value is total revenue divided by the number of DELIVERED
orders, defined as zero rather than a division fault when that number is
zero. -/
theorem stats_revenue_delivered_only (db : DB) (date_from date_to : Nat) :
    (get_order_stats db date_from date_to).total_revenue =
      ((ordersInRange db date_from date_to).map
        (fun o => if o.status = OrderStatus.DELIVERED then o.total else 0)).sum ∧
    (deliveredInRange db date_from date_to = [] →
      (get_order_stats db date_from date_to).average_order_value = 0) ∧
    (deliveredInRange db date_from date_to ≠ [] →
      (get_order_stats db date_from date_to).average_order_value =
        ((get_order_stats db date_from date_to).total_revenue : ℚ) /
          ((deliveredInRange db date_from date_to).length : ℚ)) := by
  have key := sum_delivered_totals (ordersInRange db date_from date_to)
  by_cases hd : (ordersInRange db date_from date_to).filter
      (fun o => decide (o.status = OrderStatus.DELIVERED)) = []
  · refine ⟨?_, ?_, ?_⟩
    · simp [get_order_stats, hd, ← key]
    · intro _
      simp [get_order_stats, hd]
    · intro hne
      exact absurd hd hne
  · refine ⟨?_, ?_, ?_⟩
    · simp only [get_order_stats, ← key]
      rw [if_neg (by simpa using hd)]
    · intro he
      exact absurd he hd
    · intro _
      simp only [get_order_stats, deliveredInRange]
      rw [if_neg (by simpa using hd), if_neg (by simpa using hd)]
      simp

/-- C8 witness: a range with no DELIVERED orders yields average 0.00 rather
than a division fault, and on the store with one DELIVERED order in range
the average is revenue over the DELIVERED count. -/
theorem stats_revenue_delivered_only_witness :
    (get_order_stats ⟨[], [], []⟩ 0 10).average_order_value = 0 ∧
    (get_order_stats terminalDB 0 10).average_order_value =
      ((get_order_stats terminalDB 0 10).total_revenue : ℚ) /
        ((deliveredInRange terminalDB 0 10).length : ℚ) :=
  ⟨(stats_revenue_delivered_only ⟨[], [], []⟩ 0 10).2.1 rfl,
   (stats_revenue_delivered_only terminalDB 0 10).2.2 (by decide)⟩

/-- C6: validation accepts an OrderItem only when its subtotal is within
0.01 of unit price times quantity and an Order only when its total is within
0.01 of the sum of the item subtotals; any construction violating either
bound is rejected; and consequently every order persisted by either creation
endpoint satisfies both bounds. -/
theorem validation_epsilon_bounds :
    (∀ (mid : Nat) (name : String) (qty : ℤ) (up st : Money)
       (instr : Option String) (it : OrderItem),
       mkOrderItem mid name qty up st instr = some it →
       |it.subtotal - it.quantity * it.unit_price| ≤ eps) ∧
    (∀ (mid : Nat) (name : String) (qty : ℤ) (up st : Money)
       (instr : Option String),
       |st - qty * up| > eps → mkOrderItem mid name qty up st instr = none) ∧
    (∀ (oid uid : Nat) (its : List OrderItem) (total : Money) (s : OrderStatus)
       (notes : Option String) (ca ua : Nat) (o : Order),
       mkOrder oid uid its total s notes ca ua = some o →
       |o.total - (o.items.map OrderItem.subtotal).sum| ≤ eps) ∧
    (∀ (oid uid : Nat) (its : List OrderItem) (total : Money) (s : OrderStatus)
       (notes : Option String) (ca ua : Nat),
       |total - (its.map OrderItem.subtotal).sum| > eps →
       mkOrder oid uid its total s notes ca ua = none) ∧
    (∀ (db : DB) (u : Nat) (items : List OrderItemCreate)
       (notes : Option String) (oid now : Nat) (save_ok : Bool) (o : Order),
       (create_order db u items notes oid now save_ok).1 = .ok o →
       |o.total - (o.items.map OrderItem.subtotal).sum| ≤ eps ∧
       ∀ it ∈ o.items, |it.subtotal - it.quantity * it.unit_price| ≤ eps) ∧
    (∀ (db : DB) (u : Nat) (notes : Option String) (oid now : Nat)
       (save_ok : Bool) (o : Order),
       (create_order_from_cart db u notes oid now save_ok).1 = .ok o →
       |o.total - (o.items.map OrderItem.subtotal).sum| ≤ eps ∧
       ∀ it ∈ o.items, |it.subtotal - it.quantity * it.unit_price| ≤ eps) := by
  have hitem : ∀ (it : OrderItem) (m : MenuItem),
      it.unit_price = m.price → it.subtotal = m.price * it.quantity →
      |it.subtotal - it.quantity * it.unit_price| ≤ eps := by
    intro it m hup hsub
    have hz : it.subtotal - it.quantity * it.unit_price = 0 := by
      rw [hup, hsub]; ring
    rw [hz]
    simp [eps]
  refine ⟨?_, ?_, ?_, ?_, ?_, ?_⟩
  · intro mid name qty up st instr it h
    obtain ⟨heq, _, _, _, hb⟩ := mkOrderItem_eq_some h
    rw [heq]
    exact hb
  · intro mid name qty up st instr h
    cases hmk : mkOrderItem mid name qty up st instr with
    | none => rfl
    | some it =>
      obtain ⟨_, _, _, _, hb⟩ := mkOrderItem_eq_some hmk
      exact absurd hb (not_le.mpr h)
  · intro oid uid its total s notes ca ua o h
    obtain ⟨ho, _, _, hb⟩ := mkOrder_eq_some h
    rw [ho]
    exact hb
  · intro oid uid its total s notes ca ua h
    cases hmk : mkOrder oid uid its total s notes ca ua with
    | none => rfl
    | some o =>
      obtain ⟨_, _, _, hb⟩ := mkOrder_eq_some hmk
      exact absurd hb (not_le.mpr h)
  · intro db u items notes oid now save_ok o h
    rcases create_order_cases db u items notes oid now save_ok with
      ⟨e, he⟩ | ⟨o', its, hb, hmk, hr⟩
    · rw [he] at h; simp at h
    · rw [hr] at h
      simp only at h
      injection h with hh
      subst hh
      obtain ⟨ho, _, _, hbound⟩ := mkOrder_eq_some hmk
      constructor
      · rw [ho]; exact hbound
      · intro it hit
        have hits : it ∈ its := by rw [ho] at hit; exact hit
        obtain ⟨m, _, _, hup, hsub⟩ :=
          (resolveOrderItems_ok db items its hb).2 it hits
        exact hitem it m hup hsub
  · intro db u notes oid now save_ok o h
    rcases create_order_from_cart_cases db u notes oid now save_ok with
      ⟨e, he⟩ | ⟨o', its, hb, hmk, hr⟩
    · rw [he] at h; simp at h
    · rw [hr] at h
      simp only at h
      injection h with hh
      subst hh
      obtain ⟨ho, _, _, hbound⟩ := mkOrder_eq_some hmk
      constructor
      · rw [ho]; exact hbound
      · intro it hit
        have hits : it ∈ its := by rw [ho] at hit; exact hit
        obtain ⟨m, _, _, hup, hsub⟩ :=
          (buildOrderItemsFromCart_ok db (userCart db u) its hb).2 it hits
        exact hitem it m hup hsub

/-- C6 witness: a consistent item and order pass validation and satisfy the
bounds, an item whose subtotal is off by 10.00 and an order whose total is
off by 30.00 are rejected, and a concrete successful order from each
creation endpoint satisfies both bounds. -/
theorem validation_epsilon_bounds_witness :
    |(2000 : Money) - 2 * 1000| ≤ eps ∧
    mkOrderItem 1 "A" 2 1000 3000 none = none ∧
    |fixOrder.total - (fixOrder.items.map OrderItem.subtotal).sum| ≤ eps ∧
    mkOrder 42 7 [⟨1, "Item A", 2, 1000, 2000, none⟩] 5000 .PENDING none 5 5
      = none ∧
    (|fixOrder.total - (fixOrder.items.map OrderItem.subtotal).sum| ≤ eps ∧
      ∀ it ∈ fixOrder.items,
        |it.subtotal - it.quantity * it.unit_price| ≤ eps) ∧
    (|fixOrder.total - (fixOrder.items.map OrderItem.subtotal).sum| ≤ eps ∧
      ∀ it ∈ fixOrder.items,
        |it.subtotal - it.quantity * it.unit_price| ≤ eps) :=
  ⟨validation_epsilon_bounds.1 1 "A" 2 1000 2000 none
      ⟨1, "A", 2, 1000, 2000, none⟩ rfl,
   validation_epsilon_bounds.2.1 1 "A" 2 1000 3000 none (by decide),
   validation_epsilon_bounds.2.2.1 42 7 [⟨1, "Item A", 2, 1000, 2000, none⟩]
      2000 .PENDING none 5 5 fixOrder rfl,
   validation_epsilon_bounds.2.2.2.1 42 7 [⟨1, "Item A", 2, 1000, 2000, none⟩]
      5000 .PENDING none 5 5 (by decide),
   validation_epsilon_bounds.2.2.2.2.1 availDB 7 [⟨1, 2, none⟩] none 42 5 true
      fixOrder rfl,
   validation_epsilon_bounds.2.2.2.2.2 availDB 7 none 42 5 true fixOrder rfl⟩

/-- Cart lines related by eqExceptPrice agree on every field the order
conversion reads. -/
lemma eqExceptPrice_user_id {a b : CartItem} (h : eqExceptPrice a b) :
    b.user_id = a.user_id := by rw [h]

/-- Related cart lines reference the same menu item. -/
lemma eqExceptPrice_menu_item_id {a b : CartItem} (h : eqExceptPrice a b) :
    b.menu_item_id = a.menu_item_id := by rw [h]

/-- Related cart lines carry the same quantity. -/
lemma eqExceptPrice_quantity {a b : CartItem} (h : eqExceptPrice a b) :
    b.quantity = a.quantity := by rw [h]

/-- Filtering by user preserves the price-only relation between cart
stores. -/
lemma filter_user_eqExceptPrice {l1 l2 : List CartItem}
    (h : List.Forall₂ eqExceptPrice l1 l2) (u : Nat) :
    List.Forall₂ eqExceptPrice (l1.filter (fun c => c.user_id == u))
      (l2.filter (fun c => c.user_id == u)) := by
  induction h with
  | nil => exact List.Forall₂.nil
  | cons hab htail ih =>
    rename_i a b l1' l2'
    have hu : b.user_id = a.user_id := eqExceptPrice_user_id hab
    rw [List.filter_cons, List.filter_cons, hu]
    by_cases hc : a.user_id = u
    · simp only [hc, beq_self_eq_true, if_true]
      exact List.Forall₂.cons hab ih
    · have : (a.user_id == u) = false := by simp [hc]
      rw [this]
      exact ih

/-- Catalog lookups agree on databases with the same catalog. -/
lemma findMenuItem_congr {db1 db2 : DB} (h : db1.menu_items = db2.menu_items)
    (mid : Nat) : findMenuItem db1 mid = findMenuItem db2 mid := by
  unfold findMenuItem
  rw [h]

/-- The cart-to-order conversion loop never reads the snapshotted price of a
cart line: on the same catalog, carts differing only in their price
snapshots convert identically. -/
lemma buildOrderItems_snapshot_price_free {db1 db2 : DB}
    (hmenu : db1.menu_items = db2.menu_items) {l1 l2 : List CartItem}
    (h : List.Forall₂ eqExceptPrice l1 l2) :
    buildOrderItemsFromCart db1 l1 = buildOrderItemsFromCart db2 l2 := by
  induction h with
  | nil => rfl
  | cons hab htail ih =>
    rename_i a b l1' l2'
    have hmid : b.menu_item_id = a.menu_item_id := eqExceptPrice_menu_item_id hab
    have hq : b.quantity = a.quantity := eqExceptPrice_quantity hab
    rw [buildOrderItemsFromCart, buildOrderItemsFromCart, hmid, hq, ih,
      findMenuItem_congr hmenu a.menu_item_id]

/-- C5: price at order time.  Every item of an order produced by
createFromItems or createFromCart stores the current catalog price as its
unit price and current price times quantity as its subtotal; and the price
snapshots stored on cart lines are never read by createFromCart: on the same
catalog and order store, carts that differ only in their snapshotted prices
produce the same result and the same persisted orders. -/
theorem price_at_order_time :
    (∀ (db : DB) (u : Nat) (items : List OrderItemCreate)
       (notes : Option String) (oid now : Nat) (save_ok : Bool) (o : Order),
       (create_order db u items notes oid now save_ok).1 = .ok o →
       ∀ it ∈ o.items, ∃ m : MenuItem,
         findMenuItem db it.menu_item_id = some m ∧
         it.unit_price = m.price ∧ it.subtotal = m.price * it.quantity) ∧
    (∀ (db : DB) (u : Nat) (notes : Option String) (oid now : Nat)
       (save_ok : Bool) (o : Order),
       (create_order_from_cart db u notes oid now save_ok).1 = .ok o →
       ∀ it ∈ o.items, ∃ m : MenuItem,
         findMenuItem db it.menu_item_id = some m ∧
         it.unit_price = m.price ∧ it.subtotal = m.price * it.quantity) ∧
    (∀ (db1 db2 : DB) (u : Nat) (notes : Option String) (oid now : Nat)
       (save_ok : Bool),
       db1.menu_items = db2.menu_items → db1.orders = db2.orders →
       List.Forall₂ eqExceptPrice db1.cart_items db2.cart_items →
       (create_order_from_cart db1 u notes oid now save_ok).1 =
         (create_order_from_cart db2 u notes oid now save_ok).1 ∧
       (create_order_from_cart db1 u notes oid now save_ok).2.1.orders =
         (create_order_from_cart db2 u notes oid now save_ok).2.1.orders) := by
  refine ⟨?_, ?_, ?_⟩
  · intro db u items notes oid now save_ok o h it hit
    rcases create_order_cases db u items notes oid now save_ok with
      ⟨e, he⟩ | ⟨o', its, hb, hmk, hr⟩
    · rw [he] at h; simp at h
    · rw [hr] at h
      simp only at h
      injection h with hh
      subst hh
      obtain ⟨ho, _, _, _⟩ := mkOrder_eq_some hmk
      have hits : it ∈ its := by rw [ho] at hit; exact hit
      obtain ⟨m, hm, _, hup, hsub⟩ := (resolveOrderItems_ok db items its hb).2 it hits
      exact ⟨m, hm, hup, hsub⟩
  · intro db u notes oid now save_ok o h it hit
    rcases create_order_from_cart_cases db u notes oid now save_ok with
      ⟨e, he⟩ | ⟨o', its, hb, hmk, hr⟩
    · rw [he] at h; simp at h
    · rw [hr] at h
      simp only at h
      injection h with hh
      subst hh
      obtain ⟨ho, _, _, _⟩ := mkOrder_eq_some hmk
      have hits : it ∈ its := by rw [ho] at hit; exact hit
      obtain ⟨m, hm, _, hup, hsub⟩ :=
        (buildOrderItemsFromCart_ok db (userCart db u) its hb).2 it hits
      exact ⟨m, hm, hup, hsub⟩
  · intro db1 db2 u notes oid now save_ok hmenu horders hcarts
    have hfil : List.Forall₂ eqExceptPrice (userCart db1 u) (userCart db2 u) :=
      filter_user_eqExceptPrice hcarts u
    have hbuild : buildOrderItemsFromCart db1 (userCart db1 u) =
        buildOrderItemsFromCart db2 (userCart db2 u) :=
      buildOrderItems_snapshot_price_free hmenu hfil
    have hlen : (userCart db1 u).length = (userCart db2 u).length :=
      List.Forall₂.length_eq hfil
    have hnil : userCart db1 u = [] ↔ userCart db2 u = [] := by
      rw [← List.length_eq_zero, ← List.length_eq_zero, hlen]
    cases h1 : optLenLe notes 500 with
    | false =>
      constructor <;> simp [create_order_from_cart, h1, horders]
    | true =>
      by_cases h2 : userCart db1 u = []
      · have h2' : userCart db2 u = [] := hnil.mp h2
        constructor <;> simp [create_order_from_cart, h1, h2, h2', horders]
      · have h2' : ¬ userCart db2 u = [] := fun hh => h2 (hnil.mpr hh)
        cases hb : buildOrderItemsFromCart db2 (userCart db2 u) with
        | error e =>
          have hb1 : buildOrderItemsFromCart db1 (userCart db1 u) = .error e := by
            rw [hbuild, hb]
          constructor <;>
            simp [create_order_from_cart, h1, h2, h2', hb, hb1, horders]
        | ok its =>
          have hb1 : buildOrderItemsFromCart db1 (userCart db1 u) = .ok its := by
            rw [hbuild, hb]
          cases hmk : mkOrder oid u its ((its.map OrderItem.subtotal).sum)
              .PENDING notes now now with
          | none =>
            constructor <;>
              simp [create_order_from_cart, h1, h2, h2', hb, hb1, hmk, horders]
          | some o =>
            cases save_ok with
            | false =>
              constructor <;>
                simp [create_order_from_cart, h1, h2, h2', hb, hb1, hmk, horders]
            | true =>
              constructor <;>
                simp [create_order_from_cart, h1, h2, h2', hb, hb1, hmk,
                  deleteUserCart, insertOrder, horders]

/-- The mixed-price variant of availDB: same catalog and orders, cart line
for item A carrying a stale snapshot price of 99.99. -/
def staleDB : DB := ⟨[fixMenuA], [⟨10, 7, 1, "Item A", 9999, 2, 0, 0⟩], []⟩

/-- C5 witness: the successful order of availDB prices item A from the
catalog, and replacing the snapshot price 10.00 with the stale 99.99 changes
neither the result nor the persisted orders. -/
theorem price_at_order_time_witness :
    (∀ it ∈ fixOrder.items, ∃ m : MenuItem,
      findMenuItem availDB it.menu_item_id = some m ∧
      it.unit_price = m.price ∧ it.subtotal = m.price * it.quantity) ∧
    (create_order_from_cart availDB 7 none 42 5 true).1 =
      (create_order_from_cart staleDB 7 none 42 5 true).1 ∧
    (create_order_from_cart availDB 7 none 42 5 true).2.1.orders =
      (create_order_from_cart staleDB 7 none 42 5 true).2.1.orders :=
  ⟨price_at_order_time.2.1 availDB 7 none 42 5 true fixOrder rfl,
   price_at_order_time.2.2 availDB staleDB 7 none 42 5 true rfl rfl
     (List.Forall₂.cons rfl List.Forall₂.nil)⟩

/-- C1 counterexample: on the claimed scenario itself — user 7 holds one
available line (item A, price 10.00, quantity 2) and one unavailable line
(item B) — createFromCart does not produce a one-snapshot order with total
20.00: it fails ItemUnavailable on item B, creates no order, and leaves the
cart untouched. -/
theorem createFromCart_does_not_exclude_cex :
    (create_order_from_cart mixedDB 7 none 42 5 true).1 =
      .error (.ItemUnavailable 2) ∧
    (create_order_from_cart mixedDB 7 none 42 5 true).2.1 = mixedDB :=
  ⟨rfl, rfl⟩

/-- C1 (amended): createFromCart never excludes a cart line.  On an empty
cart it fails EmptyCart; whenever any line of a non-empty cart references a
missing or unavailable menu item the whole call fails rather than dropping
the line; and a successful order carries exactly one snapshot per cart
line.  There is no EmptyOrder outcome. -/
theorem createFromCart_fails_on_unorderable_line (db : DB) (u : Nat)
    (notes : Option String) (oid now : Nat) (save_ok : Bool) :
    (optLenLe notes 500 = true → userCart db u = [] →
      (create_order_from_cart db u notes oid now save_ok).1 =
        .error .EmptyCart) ∧
    ((∃ line ∈ userCart db u,
        findMenuItem db line.menu_item_id = none ∨
        ∃ m : MenuItem, findMenuItem db line.menu_item_id = some m ∧
          m.available = false) →
      ∀ o, (create_order_from_cart db u notes oid now save_ok).1 ≠ .ok o) ∧
    (∀ o, (create_order_from_cart db u notes oid now save_ok).1 = .ok o →
      o.items.length = (userCart db u).length) := by
  refine ⟨?_, ?_, ?_⟩
  · intro hn hc
    simp [create_order_from_cart, hn, hc]
  · rintro ⟨line, hline, hbad⟩ o h
    rcases create_order_from_cart_cases db u notes oid now save_ok with
      ⟨e, he⟩ | ⟨o', its, hb, hmk, hr⟩
    · rw [he] at h; simp at h
    · exact buildOrderItemsFromCart_not_ok db (userCart db u) line hline hbad
        its hb
  · intro o h
    rcases create_order_from_cart_cases db u notes oid now save_ok with
      ⟨e, he⟩ | ⟨o', its, hb, hmk, hr⟩
    · rw [he] at h; simp at h
    · rw [hr] at h
      simp only at h
      injection h with hh
      subst hh
      obtain ⟨ho, _, _, _⟩ := mkOrder_eq_some hmk
      rw [ho]
      exact (buildOrderItemsFromCart_ok db (userCart db u) its hb).1

/-- C1 witness for the amended claim: an empty cart fails EmptyCart, and the
unavailable line of the mixed cart makes the whole conversion fail rather
than yield the one-item order. -/
theorem createFromCart_fails_on_unorderable_line_witness :
    (create_order_from_cart ⟨[], [], []⟩ 7 none 42 5 true).1 =
      .error .EmptyCart ∧
    (create_order_from_cart mixedDB 7 none 42 5 true).1 ≠ .ok fixOrder :=
  ⟨(createFromCart_fails_on_unorderable_line ⟨[], [], []⟩ 7 none 42 5 true).1
      rfl rfl,
   (createFromCart_fails_on_unorderable_line mixedDB 7 none 42 5 true).2.1
      ⟨fixLineB, by decide, Or.inr ⟨fixMenuB, rfl, rfl⟩⟩ fixOrder⟩

end RestaurantBackend
